import Mathlib

/-!
Verification of the `interface.py` wrapper library: a shallow embedding of
its widget-configuration state, entry-field contents, event binding and
layout dispatch, with theorems settling the specified properties.

Tkinter is modelled as follows: a widget's configuration options are a
record (`WidgetConfig`); an entry field's contents are a list of
characters with `delete`/`insert` index operations; geometry-manager
calls are reified as a `Placement` value; calls that raise return
`Except.error` with the source's message string.
-/

/- Tkinter constants used by the source (their actual string values). -/

def tk.FLAT : String := "flat"

def tk.RAISED : String := "raised"

def tk.SUNKEN : String := "sunken"

def tk.GROOVE : String := "groove"

def tk.RIDGE : String := "ridge"

def tk.TOP : String := "top"

def tk.BOTTOM : String := "bottom"

def tk.LEFT : String := "left"

def tk.RIGHT : String := "right"

/-- The mutable configuration options of a native widget that the wrapper
touches: foreground, active-state foreground, border width, relief,
cursor, background, text. -/
structure WidgetConfig where
  text : String
  bg : String
  fg : String
  activeforeground : String
  bd : Int
  relief : String
  cursor : String
deriving DecidableEq, Repr

/-- The `style_map` dictionary of `UIElement.setBorder`, as a lookup
function: friendly style name to tkinter relief constant. -/
def style_map (style : String) : Option String :=
  if style = "flat" then some tk.FLAT
  else if style = "raised" then some tk.RAISED
  else if style = "sunken" then some tk.SUNKEN
  else if style = "groove" then some tk.GROOVE
  else if style = "ridge" then some tk.RIDGE
  else none

/-- `UIElement.setBorder(width, style)`: raises ValueError when the style
is not a key of `style_map`, otherwise configures `bd` and `relief`. -/
def UIElement.setBorder (w : WidgetConfig) (width : Int) (style : String) :
    Except String WidgetConfig :=
  match style_map style with
  | none => Except.error "Style must be: flat, raised, sunken, groove, ridge"
  | some relief => Except.ok { w with bd := width, relief := relief }

/-- `UIElement.setOpacity(alpha)`: if `0.0 <= alpha <= 1.0` it sets the
widget's `activeforeground` to its current `fg` (`cget("fg")`), else it
raises ValueError. Numeric values are modelled as rationals. -/
def UIElement.setOpacity (w : WidgetConfig) (alpha : ℚ) :
    Except String WidgetConfig :=
  if 0 ≤ alpha ∧ alpha ≤ 1 then
    Except.ok { w with activeforeground := w.fg }
  else
    Except.error "Alpha must be between 0.0 and 1.0"

/-- `UIElement.get()`: `try: return self.widget.get() except: return None`.
The native `get` call either produces a value or fails; the wrapper maps
failure to `none`. -/
def UIElement.get (widgetGet : Except String String) : Option String :=
  match widgetGet with
  | Except.ok v => some v
  | Except.error _ => none

/-- The nested `combined` closure of `UIElement.event`: runs each attached
function once, in order. Callbacks are modelled as state transformers. -/
def combined {α : Type} (functions : List (α → α)) (s : α) : α :=
  functions.foldl (fun acc fn => fn acc) s

/-- A widget with a `command` configuration option (what a trigger of the
bound event invokes). -/
structure EventWidget (α : Type) where
  command : α → α

/-- `UIElement.event(*functions)`: sets the widget's `command` to the
`combined` closure over the given functions. -/
def UIElement.event {α : Type} (w : EventWidget α) (functions : List (α → α)) :
    EventWidget α :=
  { w with command := combined functions }

/-- One trigger of the bound event: the toolkit invokes the widget's
current `command` once. -/
def EventWidget.trigger {α : Type} (w : EventWidget α) (s : α) : α :=
  w.command s

/-- A callback that records its identifier in a log when invoked: used to
observe execution order and multiplicity. -/
def logCallback (i : Nat) : List Nat → List Nat :=
  fun log => log ++ [i]

/-- An index into an entry field's contents: a character position or the
`tk.END` sentinel. -/
inductive EntryIndex where
  | num (n : Nat)
  | END
deriving DecidableEq, Repr

/-- `Entry.delete(first, last)`: removes the characters from position
`first` up to (excluding) `last`; `END` means through the end. -/
def Entry.delete (content : List Char) (first : Nat) (last : EntryIndex) :
    List Char :=
  match last with
  | EntryIndex.num l => content.take first ++ content.drop l
  | EntryIndex.END => content.take first

/-- `Entry.insert(index, text)`: inserts `text` before position `index`. -/
def Entry.insert (content : List Char) (index : Nat) (text : List Char) :
    List Char :=
  content.take index ++ text ++ content.drop index

/-- `TextInput.setText(text)`: `delete(0, tk.END)` then `insert(0, text)`. -/
def TextInput.setText (content : List Char) (text : List Char) : List Char :=
  Entry.insert (Entry.delete content 0 EntryIndex.END) 0 text

/-- `TextInput.get()`: returns the field contents directly. -/
def TextInput.get (content : List Char) : List Char :=
  content

/-- The effect of a geometry-manager call on a widget, reified: `pack`
with an optional explicit side (none = the call passed no side), `grid`
at a row/column, `place` at x/y coordinates. -/
inductive Placement where
  | pack (side : Option String)
  | grid (row : Int) (column : Int)
  | place (x : Int) (y : Int)
deriving DecidableEq, Repr

/-- The keyword options a caller may pass to `add` (`options.get` keys). -/
structure AddOptions where
  row : Option Int
  column : Option Int
  x : Option Int
  y : Option Int
deriving DecidableEq, Repr

/-- `FrameBox.add(element, **opts)`: always `element.widget.pack()` - a
bare pack call with no options, whatever `opts` holds. -/
def FrameBox.add (opts : AddOptions) : Placement :=
  Placement.pack none

/-- The state of an `Interface` the layout machinery reads: the selected
layout mode (`self._layout`, a string or None) and the stored pack side
(`self._pack_side`). -/
structure InterfaceState where
  layout : Option String
  pack_side : String
deriving DecidableEq, Repr

/-- `Interface.__init__`: `self._layout = None; self._pack_side = tk.TOP`. -/
def Interface.init : InterfaceState :=
  { layout := none, pack_side := tk.TOP }

/-- `Interface.setLayout(layout)`: raises ValueError unless the layout is
one of `pack`, `grid`, `place`; otherwise records it. -/
def Interface.setLayout (st : InterfaceState) (layout : String) :
    Except String InterfaceState :=
  if layout ∉ (["pack", "grid", "place"] : List String) then
    Except.error "Layout must be: pack, grid, or place"
  else
    Except.ok { st with layout := some layout }

/-- The `side_map` dictionary of `Interface.setPackSide`, as a lookup
function: friendly side name to tkinter side constant. -/
def side_map (side : String) : Option String :=
  if side = "top" then some tk.TOP
  else if side = "bottom" then some tk.BOTTOM
  else if side = "left" then some tk.LEFT
  else if side = "right" then some tk.RIGHT
  else none

/-- `Interface.setPackSide(side)`: raises ValueError unless the side is a
key of `side_map`; otherwise stores the mapped constant. -/
def Interface.setPackSide (st : InterfaceState) (side : String) :
    Except String InterfaceState :=
  match side_map side with
  | none => Except.error "Side must be: top, bottom, left, right"
  | some v => Except.ok { st with pack_side := v }

/-- `Interface.add(element, **options)`: dispatches on `self._layout`;
pack uses the stored side, grid uses `options.get("row", 0)` and
`options.get("column", 0)`, place uses `options.get("x", 0)` and
`options.get("y", 0)`; anything else raises RuntimeError. -/
def Interface.add (st : InterfaceState) (options : AddOptions) :
    Except String Placement :=
  if st.layout = some "pack" then
    Except.ok (Placement.pack (some st.pack_side))
  else if st.layout = some "grid" then
    Except.ok (Placement.grid (options.row.getD 0) (options.column.getD 0))
  else if st.layout = some "place" then
    Except.ok (Placement.place (options.x.getD 0) (options.y.getD 0))
  else
    Except.error "Layout not set! Use setLayout()."

/-- A concrete widget configuration used by witnesses. -/
def sampleWidget : WidgetConfig :=
  { text := "hi", bg := "white", fg := "blue", activeforeground := "gray",
    bd := 1, relief := "flat", cursor := "arrow" }

/-- A concrete empty option set used by witnesses. -/
def noOptions : AddOptions :=
  { row := none, column := none, x := none, y := none }

/- Helper lemmas shared by the claim theorems. -/

theorem style_map_eq_none_iff (style : String) :
    style_map style = none ↔
      style ∉ (["flat", "raised", "sunken", "groove", "ridge"] : List String) := by
  unfold style_map
  split_ifs with h1 h2 h3 h4 h5 <;> simp_all

theorem side_map_eq_none_iff (side : String) :
    side_map side = none ↔
      side ∉ (["top", "bottom", "left", "right"] : List String) := by
  unfold side_map
  split_ifs with h1 h2 h3 h4 <;> simp_all

/-- Claim C1: for every string `s` and any prior field contents, calling
`TextInput.setText s` and then `TextInput.get` returns exactly `s`: the
setter clears the contents and inserts `s`, and `get` returns the
contents directly. -/
theorem textinput_settext_get_roundtrip (c s : List Char) :
    TextInput.get (TextInput.setText c s) = s := by
  simp [TextInput.get, TextInput.setText, Entry.insert, Entry.delete]

/-- Claim C2: on any interface state whose layout mode is unset - in
particular a freshly constructed `Interface` - `add` raises the
"layout not set" runtime condition and places nothing. -/
theorem add_before_setlayout_fails (st : InterfaceState) (h : st.layout = none)
    (opts : AddOptions) :
    Interface.add st opts = Except.error "Layout not set! Use setLayout()." := by
  simp [Interface.add, h]

theorem add_before_setlayout_fails_witness :
    Interface.add Interface.init noOptions =
      Except.error "Layout not set! Use setLayout()." :=
  add_before_setlayout_fails Interface.init rfl noOptions

/-- Claim C3: when the layout mode is set (to pack, grid, or place),
`add` dispatches without error: pack mode packs with the stored side,
grid mode grids at the row/column options defaulting to (0,0), place
mode places at the x/y options defaulting to (0,0). -/
theorem add_dispatches_by_layout (st : InterfaceState) (opts : AddOptions)
    (h : st.layout = some "pack" ∨ st.layout = some "grid" ∨
      st.layout = some "place") :
    (st.layout = some "pack" →
      Interface.add st opts = Except.ok (Placement.pack (some st.pack_side))) ∧
    (st.layout = some "grid" →
      Interface.add st opts =
        Except.ok (Placement.grid (opts.row.getD 0) (opts.column.getD 0))) ∧
    (st.layout = some "place" →
      Interface.add st opts =
        Except.ok (Placement.place (opts.x.getD 0) (opts.y.getD 0))) ∧
    (∃ p, Interface.add st opts = Except.ok p) := by
  refine ⟨?_, ?_, ?_, ?_⟩
  · intro hp
    simp [Interface.add, hp]
  · intro hg
    simp [Interface.add, hg]
  · intro hpl
    simp [Interface.add, hpl]
  · rcases h with hp | hg | hpl
    · exact ⟨Placement.pack (some st.pack_side), by simp [Interface.add, hp]⟩
    · exact ⟨Placement.grid (opts.row.getD 0) (opts.column.getD 0),
        by simp [Interface.add, hg]⟩
    · exact ⟨Placement.place (opts.x.getD 0) (opts.y.getD 0),
        by simp [Interface.add, hpl]⟩

theorem add_dispatches_by_layout_witness :
    Interface.add { layout := some "grid", pack_side := tk.TOP }
      { row := some 2, column := none, x := none, y := none } =
      Except.ok (Placement.grid 2 0) :=
  (add_dispatches_by_layout { layout := some "grid", pack_side := tk.TOP }
    { row := some 2, column := none, x := none, y := none }
    (Or.inr (Or.inl rfl))).2.1 rfl

/-- Claim C4: `setOpacity v` raises the invalid-argument condition if and
only if `v < 0` or `v > 1`. -/
theorem setopacity_error_iff (w : WidgetConfig) (alpha : ℚ) :
    (∃ e, UIElement.setOpacity w alpha = Except.error e) ↔
      (alpha < 0 ∨ 1 < alpha) := by
  have key : (alpha < 0 ∨ 1 < alpha) ↔ ¬(0 ≤ alpha ∧ alpha ≤ 1) := by
    constructor
    · rintro (hc | hc) ⟨h0, h1⟩
      · exact absurd h0 (not_le.mpr hc)
      · exact absurd h1 (not_le.mpr hc)
    · intro hn
      by_contra hno
      push_neg at hno
      exact hn hno
  rw [key]
  unfold UIElement.setOpacity
  split_ifs with h
  · simp [h.1, h.2]
  · simp [h]

theorem setopacity_error_iff_witness :
    ∃ e, UIElement.setOpacity sampleWidget 2 = Except.error e :=
  (setopacity_error_iff sampleWidget 2).mpr (Or.inr (by norm_num))

/-- Claim C5: `setBorder` raises the invalid-argument condition exactly
when the style is outside {flat, raised, sunken, groove, ridge}; for
each of the five valid styles it succeeds and configures the widget's
border width and relief. -/
theorem setborder_validates_style (w : WidgetConfig) (width : Int)
    (style : String) :
    ((∃ e, UIElement.setBorder w width style = Except.error e) ↔
      style ∉ (["flat", "raised", "sunken", "groove", "ridge"] : List String)) ∧
    (∀ r, style_map style = some r →
      UIElement.setBorder w width style =
        Except.ok { w with bd := width, relief := r }) ∧
    (style ∈ (["flat", "raised", "sunken", "groove", "ridge"] : List String) →
      ∃ r, UIElement.setBorder w width style =
        Except.ok { w with bd := width, relief := r }) := by
  refine ⟨?_, ?_, ?_⟩
  · rw [← style_map_eq_none_iff]
    unfold UIElement.setBorder
    cases hm : style_map style <;> simp
  · intro r hr
    simp [UIElement.setBorder, hr]
  · intro hmem
    cases hm : style_map style with
    | none => exact absurd hmem ((style_map_eq_none_iff style).mp hm)
    | some r => exact ⟨r, by simp [UIElement.setBorder, hm]⟩

theorem setborder_validates_style_witness :
    UIElement.setBorder sampleWidget 3 "groove" =
      Except.ok { sampleWidget with bd := 3, relief := tk.GROOVE } :=
  (setborder_validates_style sampleWidget 3 "groove").2.1 tk.GROOVE rfl

/-- Claim C6: `setLayout` accepts and records exactly "pack", "grid",
"place", raising invalid-argument on anything else (without touching the
state); `setPackSide` maps exactly top/bottom/left/right to the native
side constants and raises invalid-argument on any other name. -/
theorem setlayout_setpackside_validate (st : InterfaceState)
    (layout side : String) :
    (layout ∈ (["pack", "grid", "place"] : List String) →
      Interface.setLayout st layout =
        Except.ok { st with layout := some layout }) ∧
    (layout ∉ (["pack", "grid", "place"] : List String) →
      Interface.setLayout st layout =
        Except.error "Layout must be: pack, grid, or place") ∧
    (Interface.setPackSide st "top" = Except.ok { st with pack_side := tk.TOP }) ∧
    (Interface.setPackSide st "bottom" =
      Except.ok { st with pack_side := tk.BOTTOM }) ∧
    (Interface.setPackSide st "left" =
      Except.ok { st with pack_side := tk.LEFT }) ∧
    (Interface.setPackSide st "right" =
      Except.ok { st with pack_side := tk.RIGHT }) ∧
    (side ∉ (["top", "bottom", "left", "right"] : List String) →
      Interface.setPackSide st side =
        Except.error "Side must be: top, bottom, left, right") := by
  refine ⟨fun hm => by simp [Interface.setLayout, hm],
    fun hm => by simp [Interface.setLayout, hm],
    rfl, rfl, rfl, rfl, fun hs => ?_⟩
  have hnone : side_map side = none := (side_map_eq_none_iff side).mpr hs
  simp [Interface.setPackSide, hnone]

theorem setlayout_setpackside_validate_witness :
    Interface.setLayout Interface.init "grid" =
      Except.ok { Interface.init with layout := some "grid" } :=
  (setlayout_setpackside_validate Interface.init "grid" "top").1 (by decide)

/-- Claim C7: one trigger of an event bound with `event f1, ..., fn` runs
each callback exactly once, in registration order: instrumenting each
callback to append its identifier to a log, the log after a trigger is
the old log followed by the identifiers in registration order. -/
theorem event_trigger_order (ids : List Nat) (w : EventWidget (List Nat))
    (log : List Nat) :
    (UIElement.event w (ids.map logCallback)).trigger log = log ++ ids := by
  show combined (ids.map logCallback) log = log ++ ids
  induction ids generalizing log with
  | nil => simp [combined]
  | cons i rest ih =>
      have hstep : combined ((i :: rest).map logCallback) log
          = combined (rest.map logCallback) (log ++ [i]) := rfl
      rw [hstep, ih]
      simp

/-- Claim C8: `FrameBox.add` always issues a bare default `pack()` call -
no options, independent of whatever options were passed and of any parent
interface's layout state. -/
theorem framebox_add_always_default_pack (parent : InterfaceState)
    (opts opts2 : AddOptions) :
    FrameBox.add opts = Placement.pack none ∧
      FrameBox.add opts = FrameBox.add opts2 :=
  ⟨rfl, rfl⟩

/-- Claim C9: `UIElement.get` maps a failing native `get` to `none`
instead of propagating the failure, and returns the native value
directly when the native `get` succeeds; it never raises. -/
theorem get_swallows_failure (e v : String) :
    UIElement.get (Except.error e) = none ∧
      UIElement.get (Except.ok v) = some v :=
  ⟨rfl, rfl⟩

/-- Claim C10: for every alpha in [0,1], `setOpacity` only sets the
widget's `activeforeground` to its current `fg`, leaving every other
option unchanged; the result is the same for every valid alpha. -/
theorem setopacity_only_activeforeground (w : WidgetConfig) (a b : ℚ)
    (ha0 : 0 ≤ a) (ha1 : a ≤ 1) (hb0 : 0 ≤ b) (hb1 : b ≤ 1) :
    UIElement.setOpacity w a = Except.ok { w with activeforeground := w.fg } ∧
      UIElement.setOpacity w a = UIElement.setOpacity w b := by
  constructor <;> simp [UIElement.setOpacity, ha0, ha1, hb0, hb1]

theorem setopacity_only_activeforeground_witness :
    UIElement.setOpacity sampleWidget (1 / 2) =
        Except.ok { sampleWidget with activeforeground := sampleWidget.fg } ∧
      UIElement.setOpacity sampleWidget (1 / 2) =
        UIElement.setOpacity sampleWidget (1 / 4) :=
  setopacity_only_activeforeground sampleWidget (1 / 2) (1 / 4)
    (by norm_num) (by norm_num) (by norm_num) (by norm_num)
